import Mathlib

/-!
Verification of the exam-session core of the vce-trainer repository.

The Python source is shallowly embedded: dataclasses become structures,
Python dicts become association lists (Python dicts preserve insertion
order and never hold duplicate keys), in-place mutation becomes explicit
state passing, and ambient inputs (wall-clock timestamps, elapsed seconds,
disk-write success) become explicit parameters.  Python `int` values that
are only ever non-negative in the program (ids, indices, counts, scores)
are modelled as `Nat`.
-/

namespace VceTrainer

/-- Mirrors `vce_parser.Question` (dataclass). -/
structure Question where
  id : Nat
  type : String
  question_text : String
  answers : List String
  correct_answers : List Nat
  correct_answer_letters : Option String := none
  explanation : Option String := none
  image_path : Option String := none
deriving Repr, DecidableEq, Inhabited

/-- Mirrors `vce_parser.Exam` (dataclass). -/
structure Exam where
  title : String
  description : String
  author : String
  version : String
  total_questions : Nat
  passing_score : Nat
  time_limit : Option Nat
  questions : List Question
deriving Repr, DecidableEq

/-- Mirrors `exam_player.UserAnswer` (dataclass). -/
structure UserAnswer where
  question_id : Nat
  selected_answers : List Nat
  time_spent : Nat
  timestamp : String
  is_correct : Option Bool := none
  is_marked : Bool := false
deriving Repr, DecidableEq

/-- Mirrors `exam_player.ExamSession` (dataclass).  The `answers` dict
(display position -> UserAnswer) is an insertion-ordered association list,
as a Python dict is. -/
structure ExamSession where
  session_id : String
  exam_title : String
  start_time : String
  end_time : Option String := none
  total_time_spent : Nat := 0
  status : String := "in_progress"
  answers : List (Nat × UserAnswer) := []
  current_question : Nat := 1
  score : Option Nat := none
  passed : Option Bool := none
deriving Repr, DecidableEq

/-- Python `d[k]` / `k in d` lookup on an association list (first match). -/
def dlookup {κ α : Type} [DecidableEq κ] (k : κ) : List (κ × α) → Option α
  | [] => none
  | kv :: rest => if kv.1 = k then some kv.2 else dlookup k rest

/-- Python in-place field mutation of the value stored at key `k`. -/
def dupdate {κ α : Type} [DecidableEq κ] (k : κ) (f : α → α)
    (d : List (κ × α)) : List (κ × α) :=
  d.map (fun kv => if kv.1 = k then (kv.1, f kv.2) else kv)

/-- Python `d[k] = v`: overwrite the value if `k` is present, otherwise
append the new binding (insertion order). -/
def dinsert {κ α : Type} [DecidableEq κ] (k : κ) (v : α)
    (d : List (κ × α)) : List (κ × α) :=
  if (dlookup k d).isSome then dupdate k (fun _ => v) d else d ++ [(k, v)]

/-- Python `set(a) == set(b)` on lists of ints: mutual containment. -/
def sameSet (a b : List Nat) : Bool :=
  a.all (fun x => b.contains x) && b.all (fun x => a.contains x)

/-- Mirrors the state of `exam_player.ExamPlayer` (the exam it loaded, the
current session and the display order built at session start). -/
structure ExamPlayer where
  exam : Exam
  current_session : Option ExamSession := none
  question_order : List Nat := []
deriving Repr, DecidableEq

/-- Mirrors `ExamPlayer.start_new_session`.  The Python method derives
`session_id` and `timestamp` from the wall clock; both are parameters
here.  The `randomize_questions` argument is accepted and then forced to
`False` by the source before use, so it is ignored.  There is no failure
path: the method always creates a fresh in-progress session. -/
def start_new_session (p : ExamPlayer) (randomize_questions : Bool)
    (max_questions : Nat) (session_id : String) (timestamp : String) :
    ExamPlayer × String :=
  let _ := randomize_questions
  let order := List.range p.exam.questions.length
  let order := if 0 < max_questions ∧ max_questions < order.length then
    order.take max_questions else order
  let exam := { p.exam with total_questions := order.length }
  let s : ExamSession :=
    { session_id := session_id
      exam_title := p.exam.title
      start_time := timestamp
      current_question := 1 }
  ({ p with
      exam := exam
      question_order := order
      current_session := some s }, session_id)

/-- Mirrors `ExamPlayer.select_answer`.  The timestamp written into the
record is a parameter standing for `datetime.now().isoformat()`.  Note the
source validates nothing: any `question_num` and any `answer_indices` are
accepted whenever a session is active. -/
def select_answer (p : ExamPlayer) (question_num : Nat)
    (answer_indices : List Nat) (now : String) : ExamPlayer × Bool :=
  match p.current_session with
  | none => (p, false)
  | some s =>
    match dlookup question_num s.answers with
    | none =>
      let ua : UserAnswer :=
        { question_id := question_num
          selected_answers := answer_indices
          time_spent := 0
          timestamp := now }
      let s' := { s with answers := s.answers ++ [(question_num, ua)] }
      ({ p with current_session := some s' }, true)
    | some _ =>
      let upd := fun (ua : UserAnswer) =>
        { ua with selected_answers := answer_indices, timestamp := now }
      let s' := { s with answers := dupdate question_num upd s.answers }
      ({ p with current_session := some s' }, true)

/-- Mirrors `ExamPlayer.mark_question`. -/
def mark_question (p : ExamPlayer) (question_num : Nat) :
    ExamPlayer × Bool :=
  match p.current_session with
  | none => (p, false)
  | some s =>
    if s.answers.isEmpty then (p, false)
    else match dlookup question_num s.answers with
    | none => (p, false)
    | some _ =>
      let d := dupdate question_num
        (fun ua => { ua with is_marked := true }) s.answers
      let s' := { s with answers := d }
      ({ p with current_session := some s' }, true)

/-- Mirrors `ExamPlayer.next_question`: advance by one unless already at
the last display position. -/
def next_question (p : ExamPlayer) : ExamPlayer × Nat :=
  match p.current_session with
  | none => (p, 1)
  | some s =>
    let s' := if s.current_question < p.question_order.length then
      { s with current_question := s.current_question + 1 } else s
    ({ p with current_session := some s' }, s'.current_question)

/-- Mirrors `ExamPlayer.previous_question`: retreat by one unless already
at position 1. -/
def previous_question (p : ExamPlayer) : ExamPlayer × Nat :=
  match p.current_session with
  | none => (p, 1)
  | some s =>
    let s' := if 1 < s.current_question then
      { s with current_question := s.current_question - 1 } else s
    ({ p with current_session := some s' }, s'.current_question)

/-- Mirrors `ExamPlayer.jump_to_question`. -/
def jump_to_question (p : ExamPlayer) (question_num : Nat) :
    ExamPlayer × Bool :=
  if 1 ≤ question_num ∧ question_num ≤ p.question_order.length then
    match p.current_session with
    | none => (p, true)
    | some s =>
      let s' := { s with current_question := question_num }
      ({ p with current_session := some s' }, true)
  else (p, false)

/-- One iteration of the scoring loop of `ExamPlayer.calculate_score`:
if the question's id is a key of the answers dict, set that record's
`is_correct` from the set comparison and count a correct answer.  The
loop is the recursion over the question list. -/
def scoreList : List Question → List (Nat × UserAnswer) →
    List (Nat × UserAnswer) × Nat
  | [], d => (d, 0)
  | q :: qs, d =>
    match dlookup q.id d with
    | none => scoreList qs d
    | some ua =>
      let b := sameSet ua.selected_answers q.correct_answers
      let r := scoreList qs
        (dupdate q.id (fun ua' => { ua' with is_correct := some b }) d)
      (r.1, r.2 + (if b then 1 else 0))

/-- Test whether `2 ^ e ≤ a / b`, for naturals `a, b ≥ 1` and an
integer exponent `e`. -/
def lePow2 (a b : Nat) (e : Int) : Bool :=
  if 0 ≤ e then decide (b * 2 ^ e.toNat ≤ a)
  else decide (b ≤ a * 2 ^ (-e).toNat)

/-- ⌊log₂ n⌋ by repeated halving, written with structural fuel
recursion (`n` itself is always enough fuel) so that it evaluates
inside the kernel. -/
def log2fuel : Nat → Nat → Nat
  | 0, _ => 0
  | fuel + 1, n => if n < 2 then 0 else log2fuel fuel (n / 2) + 1

/-- ⌊log₂ n⌋ for `n ≥ 1` (0 for 0). -/
def natLog2 (n : Nat) : Nat := log2fuel n n

/-- ⌊log₂ (a / b)⌋ for `a, b ≥ 1`: the bit-length estimate
`log2 a - log2 b`, corrected by direct comparison (the true value is
this estimate, one above it, or one below it). -/
def flog2 (a b : Nat) : Int :=
  let g : Int := (natLog2 a : Int) - (natLog2 b : Int)
  if lePow2 a b (g + 1) then g + 1
  else if lePow2 a b g then g
  else g - 1

/-- Round the non-negative rational `a / b` (`b ≥ 1`) to the nearest
binary64 floating-point value, ties to even, returned as an exact
dyadic rational `(num, den)`: the significand is the nearest-even
53-bit integer `m` with `a / b = (m ± ε) · 2 ^ (e - 52)` where
`e = ⌊log₂ (a/b)⌋`.  Exponent limits (overflow at `2^1024`, subnormals
below `2^-1022`) are not modelled: every quotient the program can form
here — at least `1/total` and at most `100 · correct` for session-sized
counts — lies deep inside the normal range, where binary64 is exactly
"53 significant bits, unbounded exponent". -/
def round53 (a b : Nat) : Nat × Nat :=
  if a = 0 then (0, 1)
  else
    let e := flog2 a b
    let num := if 0 ≤ 52 - e then a * 2 ^ (52 - e).toNat else a
    let den := if 0 ≤ 52 - e then b else b * 2 ^ (e - 52).toNat
    let m0 := num / den
    let r := num % den
    let m := if 2 * r < den then m0
      else if den < 2 * r then m0 + 1
      else if m0 % 2 = 0 then m0 else m0 + 1
    if 52 ≤ e then (m * 2 ^ (e - 52).toNat, 1) else (m, 2 ^ (52 - e).toNat)

/-- Python `int((a / b) * 100)` exactly as CPython evaluates it:
binary64 division, then binary64 multiplication by 100 (each correctly
rounded to nearest, ties to even), then truncation toward zero.  It
differs from exact `100 * a / b` on float-unlucky pairs: for example
`a = 29, b = 100` yields 28, because `fl(29/100) · 100` rounds to just
below 29, exactly as `int((29/100)*100)` returns 28 in Python. -/
def pyIntTimes100 (a b : Nat) : Nat :=
  let x := round53 a b
  let y := round53 (x.1 * 100) x.2
  y.1 / y.2

/-- Mirrors `ExamPlayer.calculate_score`.  Returns the updated player and
the `(score, passed)` pair.  With no active session, or with an empty
answers dict, it returns `(0, False)` without touching the session.
Python computes `int((correct/total) * 100)` in binary64 float
arithmetic, modelled exactly by `pyIntTimes100` (normal floating-point
range; see `round53`).  Python raises `ZeroDivisionError` when the
display order is empty; the embedding stays total there (the `0 / 0`
convention) and every scoring theorem below is scoped to a non-empty
display order. -/
def calculate_score (p : ExamPlayer) : ExamPlayer × Nat × Bool :=
  match p.current_session with
  | none => (p, 0, false)
  | some s =>
    if s.answers.isEmpty then (p, 0, false)
    else
      let total := p.question_order.length
      let r := scoreList p.exam.questions s.answers
      let score := pyIntTimes100 r.2 total
      let passed := decide (p.exam.passing_score ≤ score)
      let s' :=
        { s with
            answers := r.1
            score := some score
            passed := some passed }
      ({ p with current_session := some s' }, score, passed)

/-- A player together with the sessions directory it saves to and loads
from (`ExamPlayer.end_session` writes `<session_id>.json`;
`ExamPlayer.review_session` reads it back). -/
structure World where
  player : ExamPlayer
  store : List (String × ExamSession)
deriving Repr, DecidableEq

/-- Mirrors `ExamPlayer.end_session`: compute the final score, stamp the
end time and elapsed seconds (parameters standing for the wall clock),
set the status to completed and save the session record.  With no active
session it returns nothing and changes nothing. -/
def end_session (w : World) (now : String) (elapsed : Nat) :
    World × Option ExamSession :=
  match w.player.current_session with
  | none => (w, none)
  | some _ =>
    let p := (calculate_score w.player).1
    match p.current_session with
    | none => (w, none)
    | some s =>
      let s' :=
        { s with
            end_time := some now
            total_time_spent := elapsed
            status := "completed" }
      let p' := { p with current_session := some s' }
      ({ player := p', store := dinsert s'.session_id s' w.store }, some s')

/-- Mirrors `ExamPlayer.review_session`: load a stored session record and
set its status to reviewed (regardless of the status it was stored with).
The Python reload keeps the JSON form of the answers dict; no claim below
inspects a reviewed session's answers, so the stored typed record stands
for it. -/
def review_session (w : World) (session_id : String) : World × Bool :=
  match dlookup session_id w.store with
  | none => (w, false)
  | some data =>
    let s := { data with status := "reviewed" }
    ({ w with player := { w.player with current_session := some s } }, true)

/-- The controller operations a user can drive a session through. -/
inductive Op where
  | start (randomize : Bool) (maxq : Nat) (sid ts : String)
  | select (question_num : Nat) (answer_indices : List Nat) (ts : String)
  | mark (question_num : Nat)
  | next
  | prev
  | jump (question_num : Nat)
  | calcScore
  | endSession (now : String) (elapsed : Nat)
  | review (session_id : String)
deriving Repr, DecidableEq

/-- Apply one controller operation to the world. -/
def applyOp (w : World) : Op → World
  | .start r mq sid ts =>
    { w with player := (start_new_session w.player r mq sid ts).1 }
  | .select n idx ts => { w with player := (select_answer w.player n idx ts).1 }
  | .mark n => { w with player := (mark_question w.player n).1 }
  | .next => { w with player := (next_question w.player).1 }
  | .prev => { w with player := (previous_question w.player).1 }
  | .jump n => { w with player := (jump_to_question w.player n).1 }
  | .calcScore => { w with player := (calculate_score w.player).1 }
  | .endSession now e => (end_session w now e).1
  | .review sid => (review_session w sid).1

/-- Status of the active session, if any. -/
def statusOf (w : World) : Option String :=
  w.player.current_session.map ExamSession.status

/-- Decimal digit character (`'0'` + d). -/
def digitCh (d : Nat) : Char := Char.ofNat (48 + d)

/-- Decimal rendering of a natural number: what `json.dump` writes for an
int dict key (Python `str(k)`). -/
def natToDecimal (n : Nat) : String :=
  if n = 0 then "0" else ⟨(Nat.digits 10 n).reverse.map digitCh⟩

/-- Numeric value of a digit character. -/
def charVal (c : Char) : Nat := c.toNat - 48

/-- Python `int(s)` on the digit strings produced by `natToDecimal`
(on any other string `int` raises, which `load_session` catches). -/
def decimalToNat? (s : String) : Option Nat :=
  if s.data ≠ [] ∧ s.data.all Char.isDigit then
    some (s.data.foldl (fun a c => a * 10 + charVal c) 0)
  else none

/-- The JSON record written by `SessionManager.save_session`
(`json.dump(asdict(session))`): identical to `ExamSession` except the
answers dict is keyed by decimal strings. -/
structure SessionJson where
  session_id : String
  exam_title : String
  start_time : String
  end_time : Option String
  total_time_spent : Nat
  status : String
  answers : List (String × UserAnswer)
  current_question : Nat
  score : Option Nat
  passed : Option Bool
deriving Repr, DecidableEq

/-- Serialization performed by `SessionManager._session_to_dict` plus
`json.dump`: int keys of the answers dict become decimal strings. -/
def sessionToJson (s : ExamSession) : SessionJson :=
  { session_id := s.session_id
    exam_title := s.exam_title
    start_time := s.start_time
    end_time := s.end_time
    total_time_spent := s.total_time_spent
    status := s.status
    answers := s.answers.map (fun kv => (natToDecimal kv.1, kv.2))
    current_question := s.current_question
    score := s.score
    passed := s.passed }

/-- Key conversion loop of `SessionManager._dict_to_session`:
`converted_answers[int(key)] = UserAnswer(**answer_data)`; a key `int`
cannot parse raises, which `load_session` catches into `None`. -/
def convertKeys : List (String × UserAnswer) →
    Option (List (Nat × UserAnswer))
  | [] => some []
  | kv :: rest =>
    match decimalToNat? kv.1, convertKeys rest with
    | some k, some tail => some ((k, kv.2) :: tail)
    | _, _ => none

/-- Mirrors `SessionManager._dict_to_session`. -/
def jsonToSession (r : SessionJson) : Option ExamSession :=
  (convertKeys r.answers).map (fun ans =>
    { session_id := r.session_id
      exam_title := r.exam_title
      start_time := r.start_time
      end_time := r.end_time
      total_time_spent := r.total_time_spent
      status := r.status
      answers := ans
      current_question := r.current_question
      score := r.score
      passed := r.passed })

/-- The sessions directory of `SessionManager`: one JSON record per
session id. -/
structure SessionStore where
  files : List (String × SessionJson)
deriving Repr, DecidableEq

/-- Mirrors `SessionManager.save_session`.  The in-memory session object
is mutated first (`session.end_time = datetime.now().isoformat()`, the
parameter `now`); only then is the record serialized and written.  A
failing disk write (`write_ok = false`, the caught exception) returns
`False` but the in-memory mutation has already happened. -/
def save_session (store : SessionStore) (session : ExamSession)
    (now : String) (write_ok : Bool) : SessionStore × ExamSession × Bool :=
  let session' := { session with end_time := some now }
  if write_ok then
    ({ files := dinsert session'.session_id (sessionToJson session')
        store.files }, session', true)
  else (store, session', false)

/-- Mirrors `SessionManager.load_session` (missing file or failed
conversion gives `None`). -/
def load_session (store : SessionStore) (session_id : String) :
    Option ExamSession :=
  match dlookup session_id store.files with
  | none => none
  | some data => jsonToSession data

/-- Mirrors `SessionManager.auto_save`: the 30-second timer saves the
player's current session, but only while its status is in_progress. -/
def auto_save (store : SessionStore) (p : ExamPlayer) (now : String)
    (write_ok : Bool) : SessionStore × ExamPlayer :=
  match p.current_session with
  | none => (store, p)
  | some s =>
    if s.status = "in_progress" then
      let r := save_session store s now write_ok
      (r.1, { p with current_session := some r.2.1 })
    else (store, p)

/-- Python `needle in hay` substring containment on char lists. -/
def containsSub (needle : List Char) : List Char → Bool
  | [] => needle.isEmpty
  | c :: rest => needle.isPrefixOf (c :: rest) || containsSub needle rest

/-- Python `needle in s` on strings. -/
def pyIn (needle s : String) : Bool := containsSub needle.data s.data

/-- Python `s.lower()` (character-wise lowering, as `str.lower` does on
the ASCII titles this program builds). -/
def pyLower (s : String) : String := ⟨s.data.map Char.toLower⟩

/-- Python `s.replace(pat, rep, 1)` on char lists: replace the first
occurrence of `pat`, or leave the list unchanged when `pat` is absent. -/
def replaceFirstAux (pat rep : List Char) : List Char → List Char
  | [] => []
  | c :: rest =>
    if pat.isPrefixOf (c :: rest) then rep ++ (c :: rest).drop pat.length
    else c :: replaceFirstAux pat rep rest

/-- Python `s.replace(pat, rep, 1)` on strings. -/
def pyReplaceFirst (s pat rep : String) : String :=
  ⟨replaceFirstAux pat.data rep.data s.data⟩

def az305Pool : List Question :=
[
  { id := 0,
    type := "single",
    question_text := "What is the primary purpose of Azure Resource Manager templates?",
    answers := ["To deploy and manage Azure resources as a group", "To handle user authentication only", "To provide cloud storage solutions", "To manage virtual networks exclusively"],
    correct_answers := [0],
    correct_answer_letters := some "A",
    explanation := some "Azure Resource Manager (ARM) templates are JSON files that define the infrastructure and configuration for your project. They allow you to deploy, update, or delete all the resources for your solution in a single, coordinated operation. This declarative approach ensures consistent and repeatable deployments.",
    image_path := none },
  { id := 0,
    type := "single",
    question_text := "Which Azure service provides a managed Kubernetes service?",
    answers := ["Azure Container Instances", "Azure Kubernetes Service (AKS)", "Azure Functions", "Azure Logic Apps"],
    correct_answers := [1],
    correct_answer_letters := some "B",
    explanation := some "Azure Kubernetes Service (AKS) is a managed container orchestration service that simplifies Kubernetes deployment, scaling, and operations. It provides a fully managed Kubernetes control plane, automated upgrades, self-healing, and easy scaling, allowing developers to focus on application development rather than infrastructure management.",
    image_path := none },
  { id := 0,
    type := "single",
    question_text := "What is Azure Load Balancer used for?",
    answers := ["Distributing traffic across multiple servers", "Storing data in the cloud", "Managing user identities", "Running serverless functions"],
    correct_answers := [0],
    correct_answer_letters := some "A",
    explanation := some "Azure Load Balancer distributes inbound traffic across multiple virtual machines or services to improve availability and performance. It operates at layer 4 of the OSI model and can handle both internal and external traffic. Load balancing ensures no single server becomes overwhelmed while providing high availability through health probes that automatically remove failed instances from the rotation.",
    image_path := none },
  { id := 0,
    type := "multiple",
    question_text := "Which of the following are Azure storage account types? (Choose all that apply)",
    answers := ["Blob storage for unstructured data", "File storage for SMB shares", "Queue storage for messages", "Table storage for NoSQL data"],
    correct_answers := [0, 1, 2, 3],
    correct_answer_letters := some "A,B,C,D",
    explanation := none,
    image_path := none },
  { id := 0,
    type := "single",
    question_text := "What does Azure Active Directory provide?",
    answers := ["Virtual machine management", "Identity and access management", "Database administration", "Network configuration"],
    correct_answers := [1],
    correct_answer_letters := some "B",
    explanation := none,
    image_path := none },
  { id := 0,
    type := "single",
    question_text := "Which Azure service is used for serverless computing?",
    answers := ["Azure Virtual Machines", "Azure Functions", "Azure Kubernetes Service", "Azure Load Balancer"],
    correct_answers := [1],
    correct_answer_letters := some "B",
    explanation := none,
    image_path := none },
  { id := 0,
    type := "single",
    question_text := "What is Azure Virtual Network (VNet) used for?",
    answers := ["Managing virtual machines only", "Isolating and segmenting network resources", "Storing data in the cloud", "Running serverless functions"],
    correct_answers := [1],
    correct_answer_letters := some "B",
    explanation := none,
    image_path := none },
  { id := 0,
    type := "single",
    question_text := "Which Azure service provides managed relational databases?",
    answers := ["Azure Storage", "Azure SQL Database", "Azure Functions", "Azure Load Balancer"],
    correct_answers := [1],
    correct_answer_letters := some "B",
    explanation := none,
    image_path := none },
  { id := 0,
    type := "multiple",
    question_text := "Which Azure services support Infrastructure as Code? (Choose all that apply)",
    answers := ["Azure Resource Manager templates", "Azure CLI", "Azure Portal", "Azure PowerShell"],
    correct_answers := [0, 1, 3],
    correct_answer_letters := some "A,B,D",
    explanation := none,
    image_path := none },
  { id := 0,
    type := "single",
    question_text := "What is Azure Monitor used for?",
    answers := ["Virtual machine management", "Application and infrastructure monitoring", "Identity management", "Database administration"],
    correct_answers := [1],
    correct_answer_letters := some "B",
    explanation := none,
    image_path := none },
  { id := 0,
    type := "single",
    question_text := "Which Azure service provides content delivery network (CDN) capabilities?",
    answers := ["Azure Traffic Manager", "Azure Front Door", "Azure CDN", "Azure Load Balancer"],
    correct_answers := [2],
    correct_answer_letters := some "C",
    explanation := none,
    image_path := none },
  { id := 0,
    type := "single",
    question_text := "What is Azure Key Vault used for?",
    answers := ["Storing virtual machine images", "Managing secrets, keys, and certificates", "Load balancing traffic", "Monitoring applications"],
    correct_answers := [1],
    correct_answer_letters := some "B",
    explanation := none,
    image_path := none },
  { id := 0,
    type := "single",
    question_text := "Which Azure service is designed for big data analytics?",
    answers := ["Azure SQL Database", "Azure Synapse Analytics", "Azure Functions", "Azure Virtual Machines"],
    correct_answers := [1],
    correct_answer_letters := some "B",
    explanation := none,
    image_path := none },
  { id := 0,
    type := "multiple",
    question_text := "Which of the following are Azure compute services? (Choose all that apply)",
    answers := ["Azure Virtual Machines", "Azure App Service", "Azure Kubernetes Service (AKS)", "Azure Storage"],
    correct_answers := [0, 1, 2],
    correct_answer_letters := some "A,B,C",
    explanation := none,
    image_path := none },
  { id := 0,
    type := "single",
    question_text := "What does Azure Policy provide?",
    answers := ["User authentication", "Resource compliance and governance", "Data storage", "Network configuration"],
    correct_answers := [1],
    correct_answer_letters := some "B",
    explanation := none,
    image_path := none },
  { id := 0,
    type := "single",
    question_text := "Which Azure service provides managed NoSQL databases?",
    answers := ["Azure SQL Database", "Azure Cosmos DB", "Azure Database for MySQL", "Azure Database for PostgreSQL"],
    correct_answers := [1],
    correct_answer_letters := some "B",
    explanation := none,
    image_path := none },
  { id := 0,
    type := "single",
    question_text := "What is Azure ExpressRoute used for?",
    answers := ["Public internet connectivity", "Private connection to Azure", "Load balancing", "Content delivery"],
    correct_answers := [1],
    correct_answer_letters := some "B",
    explanation := none,
    image_path := none },
  { id := 0,
    type := "single",
    question_text := "Which Azure service is used for IoT device management?",
    answers := ["Azure Functions", "Azure IoT Hub", "Azure Logic Apps", "Azure Event Grid"],
    correct_answers := [1],
    correct_answer_letters := some "B",
    explanation := none,
    image_path := none },
  { id := 0,
    type := "multiple",
    question_text := "Which Azure services support high availability? (Choose all that apply)",
    answers := ["Azure Traffic Manager", "Azure Load Balancer", "Azure Virtual Machine Scale Sets", "Azure Storage Account replication"],
    correct_answers := [0, 1, 2, 3],
    correct_answer_letters := some "A,B,C,D",
    explanation := none,
    image_path := none },
  { id := 0,
    type := "single",
    question_text := "What is Azure Blueprints used for?",
    answers := ["Creating architectural diagrams", "Deploying and managing environment configurations", "Managing user permissions", "Monitoring application performance"],
    correct_answers := [1],
    correct_answer_letters := some "B",
    explanation := none,
    image_path := none },
  { id := 0,
    type := "single",
    question_text := "Which Azure service provides API management capabilities?",
    answers := ["Azure API Management", "Azure Functions", "Azure Logic Apps", "Azure Event Grid"],
    correct_answers := [0],
    correct_answer_letters := some "A",
    explanation := none,
    image_path := none },
  { id := 0,
    type := "single",
    question_text := "What is Azure Firewall used for?",
    answers := ["Managing virtual machines", "Network security and filtering", "Load balancing", "Content delivery"],
    correct_answers := [1],
    correct_answer_letters := some "B",
    explanation := none,
    image_path := none },
  { id := 0,
    type := "single",
    question_text := "Which Azure service supports serverless SQL databases?",
    answers := ["Azure SQL Database", "Azure Database for MySQL", "Azure SQL Database serverless", "Azure Cosmos DB"],
    correct_answers := [2],
    correct_answer_letters := some "C",
    explanation := none,
    image_path := none },
  { id := 0,
    type := "multiple",
    question_text := "Which of the following are Azure networking services? (Choose all that apply)",
    answers := ["Azure Virtual Network", "Azure Network Security Groups", "Azure Route Tables", "Azure Storage"],
    correct_answers := [0, 1, 2],
    correct_answer_letters := some "A,B,C",
    explanation := none,
    image_path := none },
  { id := 0,
    type := "single",
    question_text := "What is Azure Arc used for?",
    answers := ["Managing hybrid and multi-cloud environments", "Virtual machine management only", "Data storage", "User authentication"],
    correct_answers := [0],
    correct_answer_letters := some "A",
    explanation := none,
    image_path := none }
]

def fundamentalsPool : List Question :=
[
  { id := 1,
    type := "single",
    question_text := "What is Microsoft Azure?",
    answers := ["A cloud computing platform", "A local development tool", "A database management system", "A networking protocol"],
    correct_answers := [0],
    correct_answer_letters := none,
    explanation := none,
    image_path := none },
  { id := 2,
    type := "single",
    question_text := "Which Azure service model includes virtual machines and storage?",
    answers := ["Software as a Service (SaaS)", "Platform as a Service (PaaS)", "Infrastructure as a Service (IaaS)", "All of the above"],
    correct_answers := [2],
    correct_answer_letters := none,
    explanation := none,
    image_path := none },
  { id := 3,
    type := "single",
    question_text := "What is the primary purpose of Azure Resource Manager?",
    answers := ["User authentication", "Resource deployment and management", "Data storage", "Network configuration"],
    correct_answers := [1],
    correct_answer_letters := none,
    explanation := none,
    image_path := none },
  { id := 4,
    type := "single",
    question_text := "Which Azure service is used for container orchestration?",
    answers := ["Azure Functions", "Azure Kubernetes Service (AKS)", "Azure Virtual Machines", "Azure Storage"],
    correct_answers := [1],
    correct_answer_letters := none,
    explanation := none,
    image_path := none },
  { id := 5,
    type := "single",
    question_text := "What does Azure Active Directory provide?",
    answers := ["Virtual machine management", "Identity and access management", "Database services", "File storage"],
    correct_answers := [1],
    correct_answer_letters := none,
    explanation := none,
    image_path := none }
]

/-- Mirrors `vce_parser.create_fallback_questions`.  The question count
that `_extract_question_count_from_filename` pulls out of the file name
with regular expressions is the parameter `extracted_count` (that helper
returns 0 when no count pattern matches, and the body then substitutes
the default 25).  The source fixes `variation_seed = 0` ("Always use
seed 0 for consistent output"). -/
def create_fallback_questions (title : String) (extracted_count : Nat) :
    List Question :=
  let title_lower := pyLower title
  let expected_count := if extracted_count = 0 then 25 else extracted_count
  let variation_seed := 0
  if pyIn "azure" title_lower && pyIn "infrastructure" title_lower then
    let base_questions := az305Pool
    let start_index := variation_seed * 3
    let selected_questions :=
      (List.range (min expected_count base_questions.length)).map (fun i =>
        let question_index := (start_index + i) % base_questions.length
        let base_question := base_questions.getD question_index default
        { base_question with id := i + 1 })
    let padding :=
      (List.range (expected_count - selected_questions.length)).map (fun j =>
        let k := selected_questions.length + j
        let base_index := k % base_questions.length
        let base_question := base_questions.getD base_index default
        let modified_text :=
          if pyIn "Azure" base_question.question_text then
            pyReplaceFirst base_question.question_text "Azure"
              "Microsoft Azure"
          else base_question.question_text
        { base_question with id := k + 1, question_text := modified_text })
    (selected_questions ++ padding).take expected_count
  else if pyIn "azure" title_lower && pyIn "fundamentals" title_lower then
    fundamentalsPool
  else
    [ { id := 1
        type := "single"
        question_text := "What is the primary focus of " ++ title ++
          " certification?"
        answers := ["Cloud computing and infrastructure",
          "Database administration", "Network security",
          "Software development"]
        correct_answers := [0] },
      { id := 2
        type := "single"
        question_text := "Which of the following is a common certification topic?"
        answers := ["Virtual machines and containers",
          "User interface design", "Hardware assembly",
          "Print media design"]
        correct_answers := [0] } ]

/-- Mirrors the fallback `Exam` construction at the end of
`vce_parser.parse_simple_text_format`, reached when decoding the binary
file content yields nothing usable (per the spec, always). -/
def fallback_exam (title : String) (extracted_count : Nat) : Exam :=
  let questions := create_fallback_questions title extracted_count
  { title := title
    description := "Parsed from file"
    author := "Unknown"
    version := "1.0"
    total_questions := questions.length
    passing_score := 70
    time_limit := none
    questions := questions }

section DictLemmas

variable {κ α β : Type} [DecidableEq κ]

lemma dlookup_append_self (k : κ) (v : α) (d : List (κ × α))
    (h : dlookup k d = none) : dlookup k (d ++ [(k, v)]) = some v := by
  induction d with
  | nil => simp [dlookup]
  | cons kv rest ih =>
    by_cases hk : kv.1 = k
    · simp [dlookup, hk] at h
    · simp only [dlookup, hk, if_neg hk, List.cons_append] at h ⊢
      exact ih h

lemma dlookup_dupdate_self (k : κ) (f : α → α) (d : List (κ × α)) :
    dlookup k (dupdate k f d) = (dlookup k d).map f := by
  induction d with
  | nil => simp [dlookup, dupdate]
  | cons kv rest ih =>
    by_cases hk : kv.1 = k
    · simp [dlookup, dupdate, hk]
    · simp only [dupdate, List.map_cons, if_neg hk, dlookup] at ih ⊢
      simp [hk, ih, dupdate]

lemma dlookup_dupdate_ne (k k' : κ) (f : α → α) (d : List (κ × α))
    (h : k' ≠ k) : dlookup k' (dupdate k f d) = dlookup k' d := by
  induction d with
  | nil => rfl
  | cons kv rest ih =>
    simp only [dupdate, List.map_cons] at ih ⊢
    by_cases hk : kv.1 = k
    · rw [if_pos hk]
      have h2 : kv.1 ≠ k' := by rw [hk]; exact fun e => h e.symm
      simp only [dlookup, if_neg h2]
      exact ih
    · rw [if_neg hk]
      simp only [dlookup]
      by_cases hk' : kv.1 = k'
      · rw [if_pos hk', if_pos hk']
      · rw [if_neg hk', if_neg hk']
        exact ih

lemma keys_dupdate (k : κ) (f : α → α) (d : List (κ × α)) :
    (dupdate k f d).map Prod.fst = d.map Prod.fst := by
  induction d with
  | nil => rfl
  | cons kv rest ih =>
    by_cases hk : kv.1 = k
    · simp [dupdate, hk, List.map_cons] at ih ⊢; exact ih
    · simp [dupdate, hk, List.map_cons] at ih ⊢; exact ih

lemma dlookup_dinsert_self (k : κ) (v : α) (d : List (κ × α)) :
    dlookup k (dinsert k v d) = some v := by
  unfold dinsert
  by_cases h : (dlookup k d).isSome
  · rw [if_pos h, dlookup_dupdate_self]
    obtain ⟨w, hw⟩ := Option.isSome_iff_exists.mp h
    rw [hw]; rfl
  · rw [if_neg h]
    exact dlookup_append_self k v d (Option.not_isSome_iff_eq_none.mp h)

lemma dlookup_eq_none (k : κ) (d : List (κ × α))
    (h : ∀ kv ∈ d, kv.1 ≠ k) : dlookup k d = none := by
  induction d with
  | nil => rfl
  | cons kv rest ih =>
    have h1 : kv.1 ≠ k := h kv (List.mem_cons_self kv rest)
    simp only [dlookup, if_neg h1]
    exact ih (fun kv' hkv' => h kv' (List.mem_cons_of_mem kv hkv'))

lemma dlookup_mapval (k : κ) (f : α → β) (d : List (κ × α)) :
    dlookup k (d.map (fun kv => (kv.1, f kv.2))) = (dlookup k d).map f := by
  induction d with
  | nil => rfl
  | cons kv rest ih =>
    by_cases hk : kv.1 = k
    · simp [dlookup, hk]
    · simp [dlookup, hk, ih]

lemma dlookup_isSome_of_mem_keys (k : κ) (d : List (κ × α))
    (h : k ∈ d.map Prod.fst) : (dlookup k d).isSome := by
  induction d with
  | nil => simp at h
  | cons kv rest ih =>
    by_cases hk : kv.1 = k
    · simp [dlookup, hk]
    · simp only [List.map_cons, List.mem_cons] at h
      rcases h with h | h

      · exact absurd h.symm hk
      · simp only [dlookup, if_neg hk]
        exact ih h

end DictLemmas

/-- A concrete exam produced by the fallback parser: the azure
infrastructure pool truncated to 4 questions. -/
def sampleExam : Exam :=
  fallback_exam "Designing Microsoft Azure Infrastructure Solutions AZ 305" 4

/-- A freshly started session on `sampleExam`. -/
def samplePlayer : ExamPlayer :=
  (start_new_session { exam := sampleExam } false 0 "session_1" "t0").1

/-- The session record `samplePlayer` holds. -/
def sampleSession : ExamSession :=
  { session_id := "session_1"
    exam_title := "Designing Microsoft Azure Infrastructure Solutions AZ 305"
    start_time := "t0"
    current_question := 1 }

/-- An exam whose question list is empty (as the structured-text parse
path can produce when it finds no questions). -/
def emptyExam : Exam :=
  { title := "Empty Text Exam"
    description := ""
    author := "Demo"
    version := "1.0"
    total_questions := 0
    passing_score := 70
    time_limit := none
    questions := [] }

lemma select_answer_new (p : ExamPlayer) (s : ExamSession) (n : Nat)
    (idx : List Nat) (ts : String) (hs : p.current_session = some s)
    (hd : dlookup n s.answers = none) :
    select_answer p n idx ts =
      ({ p with current_session := some { s with answers := s.answers ++ [(n, { question_id := n, selected_answers := idx, time_spent := 0, timestamp := ts })] } }, true) := by
  simp [select_answer, hs, hd]

lemma select_answer_update (p : ExamPlayer) (s : ExamSession) (n : Nat)
    (idx : List Nat) (ts : String) (u : UserAnswer)
    (hs : p.current_session = some s)
    (hd : dlookup n s.answers = some u) :
    select_answer p n idx ts =
      ({ p with current_session := some { s with answers := dupdate n (fun ua => { ua with selected_answers := idx, timestamp := ts }) s.answers } }, true) := by
  simp [select_answer, hs, hd]

/-- C2 (counterexample): `select_answer` performs no validation at the
controller boundary.  On the 4-question `samplePlayer`, display position
999 with option index 57 — both far out of range — is accepted: the call
returns `True` and creates an `AnswerRecord` at position 999, refuting
the claimed `InvalidPosition` / `InvalidOptionIndex` rejection. -/
theorem claim_C2_counterexample :
    (select_answer samplePlayer 999 [57] "t1").2 = true ∧
    ((select_answer samplePlayer 999 [57] "t1").1.current_session.map
      (fun s => dlookup 999 s.answers)) =
      some (some { question_id := 999, selected_answers := [57], time_spent := 0, timestamp := "t1" }) ∧
    samplePlayer.question_order.length = 4 := by
  exact ⟨rfl, rfl, rfl⟩

/-- C2 (amended): `select_answer` accepts any display position and any
option indices whenever a session is active, unconditionally creating or
overwriting the `AnswerRecord` at that position and returning `True`;
it returns `False` with no mutation only when no session is active.
(Option-index validation exists only in the presentation layer.) -/
theorem claim_C2_amended (p : ExamPlayer) (question_num : Nat)
    (answer_indices : List Nat) (now : String) :
    (p.current_session = none →
      select_answer p question_num answer_indices now = (p, false)) ∧
    (∀ s, p.current_session = some s →
      (select_answer p question_num answer_indices now).2 = true ∧
      ∃ s', (select_answer p question_num answer_indices now).1 =
          { p with current_session := some s' } ∧
        dlookup question_num s'.answers = some (
          match dlookup question_num s.answers with
          | none => { question_id := question_num, selected_answers := answer_indices, time_spent := 0, timestamp := now }
          | some old => { old with selected_answers := answer_indices, timestamp := now })) := by
  constructor
  · intro h
    simp [select_answer, h]
  · intro s hs
    rcases hd : dlookup question_num s.answers with _ | old
    · refine ⟨?_, ?_⟩
      · simp [select_answer, hs, hd]
      · refine ⟨{ s with answers := s.answers ++ [(question_num, { question_id := question_num, selected_answers := answer_indices, time_spent := 0, timestamp := now })] }, ?_, ?_⟩
        · simp [select_answer, hs, hd]
        · exact dlookup_append_self _ _ _ hd
    · refine ⟨?_, ?_⟩
      · simp [select_answer, hs, hd]
      · refine ⟨{ s with answers := dupdate question_num (fun ua => { ua with selected_answers := answer_indices, timestamp := now }) s.answers }, ?_, ?_⟩
        · simp [select_answer, hs, hd]
        · have h3 := dlookup_dupdate_self question_num (fun ua => { ua with selected_answers := answer_indices, timestamp := now }) s.answers
          rw [hd] at h3
          exact h3

/-- C2 (witness): instantiating the amended claim on `samplePlayer`. -/
theorem claim_C2_witness :
    (select_answer samplePlayer 2 [1, 2] "t2").2 = true :=
  (((claim_C2_amended samplePlayer 2 [1, 2] "t2").2) sampleSession rfl).1

/-- C3 (counterexample): `start_new_session` has no failure path.  On an
exam whose question list is empty it still succeeds and creates an
in-progress session at position 1 with an empty display order — there is
no `EmptyExam` signal anywhere in the code. -/
theorem claim_C3_counterexample :
    ((start_new_session { exam := emptyExam } false 0 "session_9"
      "t0").1.current_session.map ExamSession.status = some "in_progress") ∧
    ((start_new_session { exam := emptyExam } false 0 "session_9"
      "t0").1.current_session.map ExamSession.current_question = some 1) ∧
    ((start_new_session { exam := emptyExam } false 0 "session_9"
      "t0").1.question_order = []) ∧
    emptyExam.questions = [] := by
  exact ⟨rfl, rfl, rfl, rfl⟩

/-- C3 (amended): `start_new_session` always succeeds, on empty exams
too: it creates a `SessionState` with status in_progress and
current_question 1, the display order being `range(len(exam.questions))`
truncated to the first `max_questions` entries when that limit is set
and smaller than the question count.  No `EmptyExam` failure exists. -/
theorem claim_C3_amended (p : ExamPlayer) (randomize : Bool) (maxq : Nat)
    (sid ts : String) :
    (start_new_session p randomize maxq sid ts).2 = sid ∧
    (start_new_session p randomize maxq sid ts).1.current_session = some
      { session_id := sid, exam_title := p.exam.title, start_time := ts, current_question := 1 } ∧
    (start_new_session p randomize maxq sid ts).1.question_order =
      (if 0 < maxq ∧ maxq < p.exam.questions.length then
        (List.range p.exam.questions.length).take maxq
       else List.range p.exam.questions.length) := by
  refine ⟨rfl, rfl, ?_⟩
  simp only [start_new_session, List.length_range]

/-- C5 (confirmed): starting from any in-range position of a session,
`next_question` and `previous_question` keep the position within
`[1, total]` and are no-ops at the respective boundary (no wrap, no
error), while `jump_to_question` succeeds exactly on in-range arguments,
leaving the state untouched and returning `False` otherwise. -/
theorem claim_C5 (p : ExamPlayer) (s : ExamSession)
    (hs : p.current_session = some s)
    (h1 : 1 ≤ s.current_question)
    (h2 : s.current_question ≤ p.question_order.length) :
    (1 ≤ (next_question p).2 ∧
      (next_question p).2 ≤ p.question_order.length) ∧
    ((next_question p).1.current_session.map ExamSession.current_question
      = some (next_question p).2) ∧
    (s.current_question = p.question_order.length →
      (next_question p).1 = p) ∧
    (1 ≤ (previous_question p).2 ∧
      (previous_question p).2 ≤ p.question_order.length) ∧
    ((previous_question p).1.current_session.map
      ExamSession.current_question = some (previous_question p).2) ∧
    (s.current_question = 1 → (previous_question p).1 = p) ∧
    (∀ n, 1 ≤ n → n ≤ p.question_order.length →
      jump_to_question p n =
        ({ p with current_session := some { s with current_question := n } }, true)) ∧
    (∀ n, ¬(1 ≤ n ∧ n ≤ p.question_order.length) →
      jump_to_question p n = (p, false)) := by
  refine ⟨?_, ?_, ?_, ?_, ?_, ?_, ?_, ?_⟩
  · simp only [next_question, hs]
    by_cases h : s.current_question < p.question_order.length
    · rw [if_pos h]
      exact ⟨Nat.succ_le_succ (Nat.zero_le _), h⟩
    · rw [if_neg h]
      exact ⟨h1, h2⟩
  · simp only [next_question, hs]
    rfl
  · intro h
    simp only [next_question, hs]
    rw [if_neg (by omega)]
    rw [← hs]
  · simp only [previous_question, hs]
    by_cases h : 1 < s.current_question
    · rw [if_pos h]
      exact ⟨Nat.le_sub_one_of_lt h, le_trans (Nat.sub_le _ _) h2⟩
    · rw [if_neg h]
      exact ⟨h1, h2⟩
  · simp only [previous_question, hs]
    rfl
  · intro h
    simp only [previous_question, hs]
    rw [if_neg (by omega)]
    rw [← hs]
  · intro n hn1 hn2
    simp only [jump_to_question, hs]
    rw [if_pos ⟨hn1, hn2⟩]
  · intro n hn
    simp only [jump_to_question]
    rw [if_neg hn]

/-- C5 (witness): the navigation facts instantiated on `samplePlayer`
(4 questions, current position 1); in particular `jump(0)` and
`jump(total + 1)` return `False` and change nothing. -/
theorem claim_C5_witness :
    (previous_question samplePlayer).1 = samplePlayer ∧
    jump_to_question samplePlayer 0 = (samplePlayer, false) ∧
    jump_to_question samplePlayer 5 = (samplePlayer, false) := by
  have h := claim_C5 samplePlayer sampleSession rfl
    (by decide) (by decide)
  exact ⟨h.2.2.2.2.2.1 rfl,
    h.2.2.2.2.2.2.2 0 (by decide),
    h.2.2.2.2.2.2.2 5 (by decide)⟩

lemma select_answer_active (p : ExamPlayer) (s : ExamSession) (n : Nat)
    (idx : List Nat) (ts : String) (hs : p.current_session = some s) :
    ∃ s1, (select_answer p n idx ts).1.current_session = some s1 ∧
      (dlookup n s1.answers).isSome := by
  rcases hd : dlookup n s.answers with _ | old
  · rw [select_answer_new p s n idx ts hs hd]
    exact ⟨_, rfl, by rw [dlookup_append_self _ _ _ hd]; rfl⟩
  · rw [select_answer_update p s n idx ts old hs hd]
    refine ⟨_, rfl, ?_⟩
    have h3 := dlookup_dupdate_self n (fun ua => { ua with selected_answers := idx, timestamp := ts }) s.answers
    rw [hd] at h3
    rw [h3]
    rfl

lemma select_answer_on_answered (p : ExamPlayer) (s : ExamSession)
    (n : Nat) (idx : List Nat) (ts : String)
    (hs : p.current_session = some s)
    (hsome : (dlookup n s.answers).isSome) :
    (select_answer p n idx ts).2 = true ∧
    ∃ s2, (select_answer p n idx ts).1.current_session = some s2 ∧
      dlookup n s2.answers = (dlookup n s.answers).map
        (fun old => { old with selected_answers := idx, timestamp := ts }) ∧
      s2.answers.map Prod.fst = s.answers.map Prod.fst := by
  obtain ⟨u, hu⟩ := Option.isSome_iff_exists.mp hsome
  rw [select_answer_update p s n idx ts u hs hu]
  exact ⟨rfl, _, rfl,
    dlookup_dupdate_self n (fun ua => { ua with selected_answers := idx, timestamp := ts }) s.answers,
    keys_dupdate n (fun ua => { ua with selected_answers := idx, timestamp := ts }) s.answers⟩

/-- C8 (confirmed): a second `select_answer` on the same display
position overwrites rather than appends — afterwards the record at that
position holds exactly the latest selection list and the fresh
timestamp, all its other fields (`is_marked` included) are what they
were after the first call, and the key set of the answers dict is
unchanged. -/
theorem claim_C8 (p : ExamPlayer) (s : ExamSession) (n : Nat)
    (idx1 idx2 : List Nat) (ts1 ts2 : String)
    (hs : p.current_session = some s) :
    (select_answer (select_answer p n idx1 ts1).1 n idx2 ts2).2 = true ∧
    ∃ s1 s2, (select_answer p n idx1 ts1).1.current_session = some s1 ∧
      (select_answer (select_answer p n idx1 ts1).1 n idx2
        ts2).1.current_session = some s2 ∧
      (dlookup n s1.answers).isSome ∧
      dlookup n s2.answers = (dlookup n s1.answers).map
        (fun old => { old with selected_answers := idx2, timestamp := ts2 }) ∧
      s2.answers.map Prod.fst = s1.answers.map Prod.fst := by
  obtain ⟨s1, hs1, hsome1⟩ := select_answer_active p s n idx1 ts1 hs
  obtain ⟨hret, s2, hcs2, hl2, hk2⟩ :=
    select_answer_on_answered _ s1 n idx2 ts2 hs1 hsome1
  exact ⟨hret, s1, s2, hs1, hcs2, hsome1, hl2, hk2⟩

/-- C8 (witness): the overwrite behaviour instantiated on
`samplePlayer`: answering position 1 twice keeps the call successful. -/
theorem claim_C8_witness :
    (select_answer (select_answer samplePlayer 1 [0] "t1").1 1 [1, 2]
      "t2").2 = true :=
  (claim_C8 samplePlayer sampleSession 1 [0] [1, 2] "t1" "t2" rfl).1

lemma charVal_digitCh (d : Nat) (h : d < 10) : charVal (digitCh d) = d := by
  interval_cases d <;> rfl

lemma isDigit_digitCh (d : Nat) (h : d < 10) :
    (digitCh d).isDigit = true := by
  interval_cases d <;> rfl

lemma foldr_ofDigits (l : List Nat) :
    l.foldr (fun d a => a * 10 + d) 0 = Nat.ofDigits 10 l := by
  induction l with
  | nil => rfl
  | cons d L ih =>
    simp only [List.foldr_cons, Nat.ofDigits_cons, ih]
    ring

lemma decimal_roundtrip (n : Nat) :
    decimalToNat? (natToDecimal n) = some n := by
  by_cases h0 : n = 0
  · subst h0; rfl
  · have hne : Nat.digits 10 n ≠ [] :=
      Nat.digits_ne_nil_iff_ne_zero.mpr h0
    have hlt : ∀ d ∈ Nat.digits 10 n, d < 10 := fun d hd =>
      Nat.digits_lt_base (by norm_num) hd
    have hdata : (natToDecimal n).data =
        (Nat.digits 10 n).reverse.map digitCh := by
      unfold natToDecimal
      rw [if_neg h0]
    have h1 : (natToDecimal n).data ≠ [] := by
      rw [hdata]
      simp only [ne_eq, List.map_eq_nil_iff, List.reverse_eq_nil_iff]
      exact hne
    have h2 : (natToDecimal n).data.all Char.isDigit = true := by
      rw [hdata, List.all_eq_true]
      intro c hc
      obtain ⟨d, hd, rfl⟩ := List.mem_map.mp hc
      exact isDigit_digitCh d (hlt d (List.mem_reverse.mp hd))
    unfold decimalToNat?
    rw [if_pos ⟨h1, h2⟩, hdata]
    rw [List.foldl_map]
    have hfold : List.foldl (fun a c => a * 10 + charVal (digitCh c)) 0
        (Nat.digits 10 n).reverse =
        List.foldl (fun a d => a * 10 + d) 0 (Nat.digits 10 n).reverse := by
      apply List.foldl_ext
      intro a d hd
      rw [charVal_digitCh d (hlt d (List.mem_reverse.mp hd))]
    rw [hfold, List.foldl_reverse, foldr_ofDigits, Nat.ofDigits_digits]

lemma convertKeys_roundtrip (l : List (Nat × UserAnswer)) :
    convertKeys (l.map (fun kv => (natToDecimal kv.1, kv.2))) = some l := by
  induction l with
  | nil => rfl
  | cons kv rest ih =>
    simp only [List.map_cons, convertKeys, decimal_roundtrip, ih]

lemma json_roundtrip (s : ExamSession) :
    jsonToSession (sessionToJson s) = some s := by
  unfold jsonToSession sessionToJson
  simp only [convertKeys_roundtrip, Option.map_some]
  rfl

/-- C6 (confirmed): saving a session and loading it back by its id
returns a session equal to the in-memory one in every field — in
particular the display-position-keyed answers map survives the JSON
string-key round trip exactly.  (The saved in-memory session is the
argument with its `end_time` refreshed by `save_session`; see C10.) -/
theorem claim_C6 (store : SessionStore) (s : ExamSession) (now : String) :
    load_session (save_session store s now true).1 s.session_id =
      some (save_session store s now true).2.1 ∧
    (save_session store s now true).2.1 = { s with end_time := some now } := by
  constructor
  · show load_session
      { files := dinsert s.session_id
          (sessionToJson { s with end_time := some now }) store.files }
      s.session_id = _
    unfold load_session
    rw [dlookup_dinsert_self]
    exact json_roundtrip { s with end_time := some now }
  · rfl

/-- C10 (confirmed): `save_session` always stamps the in-memory session's
`end_time` with the current time before serializing — also on the
auto-save path for in-progress sessions — it modifies no other session
field, and the mutation is there whether or not the disk write succeeds
(the store itself is untouched when the write fails). -/
theorem claim_C10 (store : SessionStore) (s : ExamSession) (now : String)
    (ok : Bool) :
    (save_session store s now ok).2.1 = { s with end_time := some now } ∧
    (save_session store s now ok).2.2 = ok ∧
    (ok = false → (save_session store s now ok).1 = store) ∧
    (∀ p s', p.current_session = some s' → s'.status = "in_progress" →
      (auto_save store p now ok).2.current_session =
        some { s' with end_time := some now }) := by
  refine ⟨?_, ?_, ?_, ?_⟩
  · cases ok <;> rfl
  · cases ok <;> rfl
  · intro h; subst h; rfl
  · intro p s' hp hst
    simp only [auto_save, hp]
    rw [if_pos hst]
    cases ok <;> rfl

/-- C10 (witness): an auto-save of the freshly started (hence
in-progress) sample session stamps its `end_time` even though the disk
write fails. -/
theorem claim_C10_witness :
    (auto_save { files := [] } samplePlayer "t9" false).2.current_session =
      some { sampleSession with end_time := some "t9" } :=
  (claim_C10 { files := [] } sampleSession "t9" false).2.2.2 samplePlayer
    sampleSession rfl rfl

lemma status_select (p : ExamPlayer) (n : Nat) (idx : List Nat)
    (ts : String) : (select_answer p n idx ts).1.current_session.map
      ExamSession.status = p.current_session.map ExamSession.status := by
  rcases hs : p.current_session with _ | s
  · simp [select_answer, hs]
  · rcases hd : dlookup n s.answers with _ | old
    · rw [select_answer_new p s n idx ts hs hd]
      rfl
    · rw [select_answer_update p s n idx ts old hs hd]
      rfl

lemma status_mark (p : ExamPlayer) (n : Nat) :
    (mark_question p n).1.current_session.map ExamSession.status =
      p.current_session.map ExamSession.status := by
  rcases hs : p.current_session with _ | s
  · simp [mark_question, hs]
  · simp only [mark_question, hs]
    by_cases he : s.answers.isEmpty
    · simp [he, hs]
    · simp only [Bool.not_eq_true] at he
      simp only [he]
      rcases hd : dlookup n s.answers with _ | u
      · simp [hs]
      · simp [hs]

lemma status_next (p : ExamPlayer) :
    (next_question p).1.current_session.map ExamSession.status =
      p.current_session.map ExamSession.status := by
  rcases hs : p.current_session with _ | s
  · simp [next_question, hs]
  · simp only [next_question, hs]
    split_ifs <;> rfl

lemma status_prev (p : ExamPlayer) :
    (previous_question p).1.current_session.map ExamSession.status =
      p.current_session.map ExamSession.status := by
  rcases hs : p.current_session with _ | s
  · simp [previous_question, hs]
  · simp only [previous_question, hs]
    split_ifs <;> rfl

lemma status_jump (p : ExamPlayer) (n : Nat) :
    (jump_to_question p n).1.current_session.map ExamSession.status =
      p.current_session.map ExamSession.status := by
  by_cases h : 1 ≤ n ∧ n ≤ p.question_order.length
  · simp only [jump_to_question]
    rw [if_pos h]
    rcases hs : p.current_session with _ | s <;> simp [hs]
  · simp only [jump_to_question]
    rw [if_neg h]

lemma status_calc (p : ExamPlayer) :
    (calculate_score p).1.current_session.map ExamSession.status =
      p.current_session.map ExamSession.status := by
  rcases hs : p.current_session with _ | s
  · simp [calculate_score, hs]
  · simp only [calculate_score, hs]
    by_cases he : s.answers.isEmpty
    · simp [he, hs]
    · simp only [Bool.not_eq_true] at he
      simp [he, hs]

lemma session_isSome_calc (p : ExamPlayer) :
    (calculate_score p).1.current_session.isSome =
      p.current_session.isSome := by
  have h := status_calc p
  have h1 := congrArg Option.isSome h
  rwa [Option.isSome_map', Option.isSome_map'] at h1

lemma status_end_session (w : World) (now : String) (e : Nat)
    (h : w.player.current_session.isSome = true) :
    statusOf (end_session w now e).1 = some "completed" := by
  obtain ⟨s, hs⟩ := Option.isSome_iff_exists.mp h
  have hcs : (calculate_score w.player).1.current_session.isSome = true := by
    rw [session_isSome_calc, hs]
    rfl
  obtain ⟨s1, hs1⟩ := Option.isSome_iff_exists.mp hcs
  simp only [end_session, hs, hs1]
  rfl

lemma end_session_no_session (w : World) (now : String) (e : Nat)
    (h : w.player.current_session = none) :
    end_session w now e = (w, none) := by
  simp [end_session, h]

lemma status_review_found (w : World) (sid : String) (data : ExamSession)
    (h : dlookup sid w.store = some data) :
    statusOf (review_session w sid).1 = some "reviewed" := by
  simp [review_session, h, statusOf]

lemma review_not_found (w : World) (sid : String)
    (h : dlookup sid w.store = none) : review_session w sid = (w, false) := by
  simp [review_session, h]

/-- The worlds of a concrete run: start a session on the 4-question
sample exam, answer position 1, end the exam, load it back for review,
then call `end_session` once more. -/
def w0 : World := { player := { exam := sampleExam }, store := [] }

/-- After `start_new_session`. -/
def w1 : World := applyOp w0 (Op.start false 0 "session_1" "t0")

/-- After answering display position 1. -/
def w2 : World := applyOp w1 (Op.select 1 [0] "t1")

/-- After `end_session` (completed, saved). -/
def w3 : World := applyOp w2 (Op.endSession "t2" 60)

/-- After `review_session` (reviewed). -/
def w4 : World := applyOp w3 (Op.review "session_1")

/-- After a second `end_session` on the reviewed session. -/
def w5 : World := applyOp w4 (Op.endSession "t3" 61)

/-- C4 (counterexample): the status is not forward-only.  On a concrete
run the session reaches `reviewed` via the explicit load-for-review, and
a subsequent `end_session` call — which no guard prevents — sets it back
to `completed`: a regression along in_progress -> completed ->
reviewed. -/
theorem claim_C4_counterexample :
    statusOf w3 = some "completed" ∧
    statusOf w4 = some "reviewed" ∧
    statusOf w5 = some "completed" :=
  ⟨rfl, rfl, rfl⟩

/-- C4 (amended): the `reviewed` status is entered only by the explicit
load-for-review operation, never automatically — but it is not terminal
and the chain is not regression-free: `end_session` unconditionally sets
any active session's status to `completed`, also one currently in
`reviewed`. -/
theorem claim_C4_amended (w : World) (op : Op) (now : String) (e : Nat) :
    (statusOf (applyOp w op) = some "reviewed" →
      (∃ sid, op = Op.review sid) ∨ statusOf w = some "reviewed") ∧
    (w.player.current_session.isSome = true →
      statusOf (applyOp w (Op.endSession now e)) = some "completed") := by
  constructor
  · intro h
    cases op with
    | start r mq sid ts =>
      have h2 : ("in_progress" : String) = "reviewed" := Option.some.inj h
      exact absurd h2 (by decide)
    | select n idx ts =>
      right
      rw [statusOf] at h ⊢
      rw [← status_select w.player n idx ts]
      exact h
    | mark n =>
      right
      rw [statusOf] at h ⊢
      rw [← status_mark w.player n]
      exact h
    | next =>
      right
      rw [statusOf] at h ⊢
      rw [← status_next w.player]
      exact h
    | prev =>
      right
      rw [statusOf] at h ⊢
      rw [← status_prev w.player]
      exact h
    | jump n =>
      right
      rw [statusOf] at h ⊢
      rw [← status_jump w.player n]
      exact h
    | calcScore =>
      right
      rw [statusOf] at h ⊢
      rw [← status_calc w.player]
      exact h
    | endSession now2 e2 =>
      rcases hcs : w.player.current_session with _ | s
      · right
        rw [applyOp, end_session_no_session w now2 e2 hcs] at h
        exact h
      · have := status_end_session w now2 e2 (by rw [hcs]; rfl)
        rw [applyOp] at h
        rw [this] at h
        exact absurd (Option.some.inj h) (by decide)
    | review sid =>
      exact Or.inl ⟨sid, rfl⟩
  · intro h
    exact status_end_session w now e h

/-- C4 (witness): the amended claim applied on the concrete completed
world `w3`: loading for review yields `reviewed` only through the review
operation, and `end_session` on the active session yields `completed`. -/
theorem claim_C4_witness :
    ((∃ sid, Op.review "session_1" = Op.review sid) ∨
      statusOf w3 = some "reviewed") ∧
    statusOf (applyOp w3 (Op.endSession "t3" 61)) = some "completed" :=
  ⟨(claim_C4_amended w3 (Op.review "session_1") "t3" 61).1 rfl,
   (claim_C4_amended w3 (Op.review "session_1") "t3" 61).2 rfl⟩

/-- An answer record with its scoring verdict cleared. -/
def stripUA (ua : UserAnswer) : UserAnswer := { ua with is_correct := none }

/-- The answers dict with every verdict cleared: the part of the dict
the scoring loop's decisions depend on. -/
def stripD (d : List (Nat × UserAnswer)) : List (Nat × UserAnswer) :=
  d.map (fun kv => (kv.1, stripUA kv.2))

lemma stripD_dupdate_set (k : Nat) (b : Bool)
    (d : List (Nat × UserAnswer)) :
    stripD (dupdate k (fun ua => { ua with is_correct := some b }) d) =
      stripD d := by
  induction d with
  | nil => rfl
  | cons kv rest ih =>
    by_cases hk : kv.1 = k
    · simp only [stripD, dupdate, List.map_cons, if_pos hk] at ih ⊢
      exact congrArg₂ List.cons rfl ih
    · simp only [stripD, dupdate, List.map_cons, if_neg hk] at ih ⊢
      exact congrArg₂ List.cons rfl ih

lemma dlookup_stripD (k : Nat) (d : List (Nat × UserAnswer)) :
    dlookup k (stripD d) = (dlookup k d).map stripUA :=
  dlookup_mapval k stripUA d

lemma keys_stripD (d : List (Nat × UserAnswer)) :
    (stripD d).map Prod.fst = d.map Prod.fst := by
  induction d with
  | nil => rfl
  | cons kv rest ih => simp only [stripD, List.map_cons] at ih ⊢; rw [ih]

lemma dlookup_strip_congr (k : Nat) (d₁ d₂ : List (Nat × UserAnswer))
    (h : stripD d₁ = stripD d₂) :
    (dlookup k d₁).map stripUA = (dlookup k d₂).map stripUA := by
  rw [← dlookup_stripD, ← dlookup_stripD, h]

lemma set_correct_congr (u1 u2 : UserAnswer) (x : Option Bool)
    (h : stripUA u1 = stripUA u2) :
    ({ u1 with is_correct := x } : UserAnswer) =
      { u2 with is_correct := x } := by
  cases u1; cases u2
  simp only [stripUA, UserAnswer.mk.injEq] at h ⊢
  tauto

lemma strip_selected_congr (u1 u2 : UserAnswer)
    (h : stripUA u1 = stripUA u2) :
    u1.selected_answers = u2.selected_answers := by
  have h3 := congrArg UserAnswer.selected_answers h
  simpa [stripUA] using h3

lemma scoreList_strip_fix (qs : List Question)
    (d : List (Nat × UserAnswer)) :
    stripD (scoreList qs d).1 = stripD d := by
  induction qs generalizing d with
  | nil => rfl
  | cons q qs ih =>
    rcases hd : dlookup q.id d with _ | ua
    · simp only [scoreList, hd]
      exact ih d
    · simp only [scoreList, hd]
      rw [ih, stripD_dupdate_set]

lemma scoreList_keys (qs : List Question) (d : List (Nat × UserAnswer)) :
    (scoreList qs d).1.map Prod.fst = d.map Prod.fst := by
  induction qs generalizing d with
  | nil => rfl
  | cons q qs ih =>
    rcases hd : dlookup q.id d with _ | ua
    · simp only [scoreList, hd]
      exact ih d
    · simp only [scoreList, hd]
      rw [ih, keys_dupdate]

lemma scoreList_frame (qs : List Question) (k : Nat)
    (d : List (Nat × UserAnswer)) (hk : k ∉ qs.map Question.id) :
    dlookup k (scoreList qs d).1 = dlookup k d := by
  induction qs generalizing d with
  | nil => rfl
  | cons q qs ih =>
    rw [List.map_cons] at hk
    have hk1 : ¬k = q.id ∧ k ∉ qs.map Question.id := by
      constructor
      · exact fun e => hk (e ▸ List.mem_cons_self _ _)
      · exact fun e => hk (List.mem_cons_of_mem _ e)
    rcases hd : dlookup q.id d with _ | u
    · simp only [scoreList, hd]
      exact ih _ hk1.2
    · simp only [scoreList, hd]
      rw [ih _ hk1.2, dlookup_dupdate_ne _ _ _ _ hk1.1]

lemma scoreList_count_congr (qs : List Question)
    (d₁ d₂ : List (Nat × UserAnswer)) (h : stripD d₁ = stripD d₂) :
    (scoreList qs d₁).2 = (scoreList qs d₂).2 := by
  induction qs generalizing d₁ d₂ with
  | nil => rfl
  | cons q qs ih =>
    have hl := dlookup_strip_congr q.id d₁ d₂ h
    rcases hd1 : dlookup q.id d₁ with _ | u1 <;>
      rcases hd2 : dlookup q.id d₂ with _ | u2
    · simp only [scoreList, hd1, hd2]
      exact ih _ _ h
    · rw [hd1, hd2] at hl
      exact absurd hl (by simp)
    · rw [hd1, hd2] at hl
      exact absurd hl (by simp)
    · rw [hd1, hd2] at hl
      have hstrip : stripUA u1 = stripUA u2 := by simpa using hl
      have hsel := strip_selected_congr u1 u2 hstrip
      simp only [scoreList, hd1, hd2, hsel]
      have h2 : stripD (dupdate q.id (fun ua => { ua with is_correct := some (sameSet u2.selected_answers q.correct_answers) }) d₁) = stripD (dupdate q.id (fun ua => { ua with is_correct := some (sameSet u2.selected_answers q.correct_answers) }) d₂) := by
        rw [stripD_dupdate_set, stripD_dupdate_set, h]
      rw [ih _ _ h2]

lemma scoreList_lookup_congr (qs : List Question) (k : Nat)
    (d₁ d₂ : List (Nat × UserAnswer)) (h : stripD d₁ = stripD d₂)
    (hk : k ∈ qs.map Question.id) :
    dlookup k (scoreList qs d₁).1 = dlookup k (scoreList qs d₂).1 := by
  induction qs generalizing d₁ d₂ with
  | nil => simp at hk
  | cons q qs ih =>
    rw [List.map_cons] at hk
    have hk' : k = q.id ∨ k ∈ qs.map Question.id := List.mem_cons.mp hk
    have hl := dlookup_strip_congr q.id d₁ d₂ h
    rcases hd1 : dlookup q.id d₁ with _ | u1 <;>
      rcases hd2 : dlookup q.id d₂ with _ | u2
    · simp only [scoreList, hd1, hd2]
      by_cases hk2 : k ∈ qs.map Question.id
      · exact ih _ _ h hk2
      · have hkq : k = q.id := by
          rcases hk' with h' | h'
          · exact h'
          · exact absurd h' hk2
        rw [scoreList_frame qs k d₁ hk2, scoreList_frame qs k d₂ hk2, hkq,
          hd1, hd2]
    · rw [hd1, hd2] at hl
      exact absurd hl (by simp)
    · rw [hd1, hd2] at hl
      exact absurd hl (by simp)
    · rw [hd1, hd2] at hl
      have hstrip : stripUA u1 = stripUA u2 := by simpa using hl
      have hsel := strip_selected_congr u1 u2 hstrip
      simp only [scoreList, hd1, hd2, hsel]
      have h2 : stripD (dupdate q.id (fun ua => { ua with is_correct := some (sameSet u2.selected_answers q.correct_answers) }) d₁) = stripD (dupdate q.id (fun ua => { ua with is_correct := some (sameSet u2.selected_answers q.correct_answers) }) d₂) := by
        rw [stripD_dupdate_set, stripD_dupdate_set, h]
      by_cases hk2 : k ∈ qs.map Question.id
      · exact ih _ _ h2 hk2
      · have hkq : k = q.id := by
          rcases hk' with h' | h'
          · exact h'
          · exact absurd h' hk2
        rw [scoreList_frame qs k _ hk2, scoreList_frame qs k _ hk2, hkq,
          dlookup_dupdate_self, dlookup_dupdate_self, hd1, hd2]
        exact congrArg some (set_correct_congr u1 u2 _ hstrip)

lemma stripD_cons (kv : Nat × UserAnswer) (t : List (Nat × UserAnswer)) :
    stripD (kv :: t) = (kv.1, stripUA kv.2) :: stripD t := rfl

lemma dict_ext (d₁ d₂ : List (Nat × UserAnswer))
    (hnd : (d₁.map Prod.fst).Nodup)
    (hstrip : stripD d₁ = stripD d₂)
    (hl : ∀ k, dlookup k d₁ = dlookup k d₂) : d₁ = d₂ := by
  induction d₁ generalizing d₂ with
  | nil =>
    cases d₂ with
    | nil => rfl
    | cons kv t => exact absurd hstrip (by simp [stripD])
  | cons kv t ih =>
    cases d₂ with
    | nil => exact absurd hstrip (by simp [stripD])
    | cons kv2 t2 =>
      rw [stripD_cons, stripD_cons, List.cons.injEq, Prod.mk.injEq]
        at hstrip
      obtain ⟨⟨hk, _⟩, ht⟩ := hstrip
      have e1 : dlookup kv.1 (kv :: t) = some kv.2 := by
        simp [dlookup]
      have e2 : dlookup kv.1 (kv2 :: t2) = some kv2.2 := by
        simp [dlookup, hk]
      have hval : kv.2 = kv2.2 :=
        Option.some.inj ((e1.symm.trans (hl kv.1)).trans e2)
      rw [List.map_cons, List.nodup_cons] at hnd
      have hkeyt : t.map Prod.fst = t2.map Prod.fst := by
        have h2 := congrArg (List.map Prod.fst) ht
        rwa [keys_stripD, keys_stripD] at h2
      have htl : ∀ k, dlookup k t = dlookup k t2 := by
        intro k
        by_cases hkk : k = kv.1
        · have h1 : dlookup k t = none := by
            apply dlookup_eq_none
            intro kv' hkv' he
            exact hnd.1 (hkk ▸ he ▸ List.mem_map_of_mem Prod.fst hkv')
          have h2 : dlookup k t2 = none := by
            apply dlookup_eq_none
            intro kv' hkv' he
            have h3 : k ∈ t2.map Prod.fst :=
              he ▸ List.mem_map_of_mem Prod.fst hkv'
            rw [← hkeyt] at h3
            exact hnd.1 (hkk ▸ h3)
          rw [h1, h2]
        · have e3 : dlookup k (kv :: t) = dlookup k t := by
            simp only [dlookup]
            rw [if_neg (fun e => hkk e.symm)]
          have e4 : dlookup k (kv2 :: t2) = dlookup k t2 := by
            simp only [dlookup]
            rw [if_neg (fun e => hkk (hk.trans e).symm)]
          exact (e3.symm.trans (hl k)).trans e4
      have hhead : kv = kv2 := Prod.ext hk hval
      rw [hhead, ih t2 hnd.2 ht htl]

lemma calculate_score_eq (p : ExamPlayer) (s : ExamSession)
    (hs : p.current_session = some s)
    (he : s.answers.isEmpty = false) :
    calculate_score p = ({ p with current_session := some { s with answers := (scoreList p.exam.questions s.answers).1, score := some (pyIntTimes100 (scoreList p.exam.questions s.answers).2 p.question_order.length), passed := some (decide (p.exam.passing_score ≤ pyIntTimes100 (scoreList p.exam.questions s.answers).2 p.question_order.length)) } }, pyIntTimes100 (scoreList p.exam.questions s.answers).2 p.question_order.length, decide (p.exam.passing_score ≤ pyIntTimes100 (scoreList p.exam.questions s.answers).2 p.question_order.length)) := by
  simp only [calculate_score, hs, he, Bool.false_eq_true, if_false]

lemma answers_nonempty_of_keys (d1 d2 : List (Nat × UserAnswer))
    (hk : d1.map Prod.fst = d2.map Prod.fst)
    (he : d2.isEmpty = false) : d1.isEmpty = false := by
  cases d1 with
  | nil =>
    cases d2 with
    | nil => exact he
    | cons kv t => exact absurd hk (by simp)
  | cons kv t => rfl

/-- C7 (confirmed): `calculate_score` is idempotent — running it a
second time, with no intervening answer changes, returns the identical
`(score, passed)` pair and leaves the entire player state (every
record's `is_correct` flag included) exactly as after the first run.
The answers dict has no duplicate keys (a Python dict cannot), stated
here as the `Nodup` hypothesis. -/
theorem claim_C7 (p : ExamPlayer) (s : ExamSession)
    (hs : p.current_session = some s)
    (hnd : (s.answers.map Prod.fst).Nodup) :
    calculate_score (calculate_score p).1 = calculate_score p := by
  by_cases he : s.answers.isEmpty = true
  · have h1 : calculate_score p = (p, 0, false) := by
      simp [calculate_score, hs, he]
    rw [h1]
    exact h1
  · have he' : s.answers.isEmpty = false := by
      rwa [Bool.not_eq_true] at he
    have hkeys : (scoreList p.exam.questions s.answers).1.map Prod.fst =
        s.answers.map Prod.fst := scoreList_keys _ _
    have hne1 : (scoreList p.exam.questions s.answers).1.isEmpty = false :=
      answers_nonempty_of_keys _ _ hkeys he'
    have hstrip : stripD (scoreList p.exam.questions s.answers).1 =
        stripD s.answers := scoreList_strip_fix _ _
    have hc : (scoreList p.exam.questions
        (scoreList p.exam.questions s.answers).1).2 =
        (scoreList p.exam.questions s.answers).2 :=
      scoreList_count_congr _ _ _ hstrip
    have hA : (scoreList p.exam.questions
        (scoreList p.exam.questions s.answers).1).1 =
        (scoreList p.exam.questions s.answers).1 := by
      apply dict_ext
      · rw [scoreList_keys, hkeys]
        exact hnd
      · rw [scoreList_strip_fix, scoreList_strip_fix]
      · intro k
        by_cases hk : k ∈ p.exam.questions.map Question.id
        · exact scoreList_lookup_congr _ k _ _ hstrip hk
        · exact scoreList_frame _ k _ hk
    rw [calculate_score_eq p s hs he']
    dsimp only
    rw [calculate_score_eq _ _ rfl hne1]
    dsimp only
    rw [hc, hA]

/-- The spec's scoring scenario: a session on the 4-question sample
exam with positions 1, 2, 3 answered correctly and 4 unanswered. -/
def scenarioPlayer : ExamPlayer :=
  (select_answer (select_answer (select_answer ((start_new_session
    { exam := sampleExam } false 0 "session_2" "t0").1) 1 [0] "t1").1
    2 [1] "t2").1 3 [0] "t3").1

/-- The session record `scenarioPlayer` holds. -/
def scenarioSession : ExamSession :=
  { session_id := "session_2"
    exam_title := "Designing Microsoft Azure Infrastructure Solutions AZ 305"
    start_time := "t0"
    current_question := 1
    answers := [(1, { question_id := 1, selected_answers := [0], time_spent := 0, timestamp := "t1" }), (2, { question_id := 2, selected_answers := [1], time_spent := 0, timestamp := "t2" }), (3, { question_id := 3, selected_answers := [0], time_spent := 0, timestamp := "t3" })] }

/-- C7 (witness): idempotence instantiated on the concrete scenario
session defined below (three answered positions, distinct keys). -/
theorem claim_C7_witness :
    calculate_score (calculate_score scenarioPlayer).1 =
      calculate_score scenarioPlayer :=
  claim_C7 scenarioPlayer scenarioSession rfl (by decide)

/-- The question shown at 1-based display position `pos`
(`exam.questions[question_order[pos-1]]`). -/
def displayedQuestion (p : ExamPlayer) (pos : Nat) : Option Question :=
  match p.question_order.get? (pos - 1) with
  | none => none
  | some idx => p.exam.questions.get? idx

/-- The claim's notion of a correctly answered display position: an
AnswerRecord exists there and its selected-index set equals the correct
set of the question displayed at that position. -/
def posCorrect (p : ExamPlayer) (ans : List (Nat × UserAnswer))
    (pos : Nat) : Bool :=
  match dlookup pos ans, displayedQuestion p pos with
  | some ua, some q => sameSet ua.selected_answers q.correct_answers
  | _, _ => false

/-- The claim's correct count: display positions 1..total with a
matching AnswerRecord (unanswered positions are never counted). -/
def correctCount (p : ExamPlayer) (ans : List (Nat × UserAnswer)) : Nat :=
  ((List.range p.question_order.length).map (· + 1)).countP
    (posCorrect p ans)

/-- What the scoring loop tests for one question: a record stored under
the question's id whose selected set matches. -/
def matchB (d : List (Nat × UserAnswer)) (q : Question) : Bool :=
  match dlookup q.id d with
  | some ua => sameSet ua.selected_answers q.correct_answers
  | none => false

/-- Python `round()` applied to the exact rational `num/den`
(round half to even), the operation the claim's formula uses. -/
def pyRound (num den : Nat) : Nat :=
  if 2 * (num % den) < den then num / den
  else if den < 2 * (num % den) then num / den + 1
  else if (num / den) % 2 = 0 then num / den else num / den + 1

/-- Python `self.current_session.answers` (empty when no session). -/
def sessionAnswers (p : ExamPlayer) : List (Nat × UserAnswer) :=
  match p.current_session with
  | some s => s.answers
  | none => []

lemma scoreList_count (qs : List Question)
    (d : List (Nat × UserAnswer)) :
    (scoreList qs d).2 = qs.countP (matchB d) := by
  induction qs generalizing d with
  | nil => rfl
  | cons q qs ih =>
    rcases hd : dlookup q.id d with _ | u
    · simp only [scoreList, hd]
      rw [ih, List.countP_cons]
      simp [matchB, hd]
    · simp only [scoreList, hd]
      have h1 : (scoreList qs (dupdate q.id (fun ua => { ua with is_correct := some (sameSet u.selected_answers q.correct_answers) }) d)).2 = (scoreList qs d).2 :=
        scoreList_count_congr _ _ _ (by rw [stripD_dupdate_set])
      rw [h1, ih, List.countP_cons]
      simp [matchB, hd]

lemma countP_take_range (qs : List Question) :
    ∀ (t : Nat) (f : Question → Bool) (g : Nat → Bool), t ≤ qs.length →
    (∀ i q, i < t → qs.get? i = some q → f q = g i) →
    (qs.take t).countP f = (List.range t).countP g := by
  induction qs with
  | nil =>
    intro t f g ht _
    have ht0 : t = 0 := Nat.le_zero.mp (by simpa using ht)
    subst ht0
    rfl
  | cons q rest ih =>
    intro t f g ht hfg
    cases t with
    | zero => rfl
    | succ t' =>
      have h0 : f q = g 0 := hfg 0 q (Nat.succ_pos t') rfl
      have ht' : t' ≤ rest.length := Nat.le_of_succ_le_succ ht
      have hstep : ∀ i q', i < t' → rest.get? i = some q' →
          f q' = g (i + 1) := by
        intro i q' hi hq'
        exact hfg (i + 1) q' (Nat.succ_lt_succ hi) hq'
      have hrec := ih t' f (fun i => g (i + 1)) ht' hstep
      rw [List.take_succ_cons, List.countP_cons, List.range_succ_eq_map,
        List.countP_cons, List.countP_map, hrec, h0]
      exact rfl

lemma question_id_at (p : ExamPlayer)
    (hids : p.exam.questions.map Question.id =
      (List.range p.exam.questions.length).map (· + 1)) :
    ∀ i q, p.exam.questions.get? i = some q → q.id = i + 1 := by
  intro i q hq
  have hi : i < p.exam.questions.length := by
    by_contra hno
    rw [List.get?_eq_none.mpr (Nat.le_of_not_lt hno)] at hq
    cases hq
  have h1 := congrArg (fun l => List.get? l i) hids
  simp only [List.get?_map, hq, List.get?_range hi,
    Option.map_some] at h1
  exact Option.some.inj h1

lemma code_count_eq_spec (p : ExamPlayer)
    (ans : List (Nat × UserAnswer))
    (hids : p.exam.questions.map Question.id =
      (List.range p.exam.questions.length).map (· + 1))
    (hord : p.question_order = List.range p.question_order.length)
    (htm : p.question_order.length ≤ p.exam.questions.length)
    (hkeys : ∀ kv ∈ ans, 1 ≤ kv.1 ∧ kv.1 ≤ p.question_order.length) :
    p.exam.questions.countP (matchB ans) = correctCount p ans := by
  have hid := question_id_at p hids
  have hsplit := List.take_append_drop p.question_order.length
    p.exam.questions
  have hdrop : (p.exam.questions.drop p.question_order.length).countP
      (matchB ans) = 0 := by
    rw [List.countP_eq_zero]
    intro q hq
    obtain ⟨j, hj⟩ := List.mem_iff_get?.mp hq
    rw [List.get?_drop] at hj
    have hqid : q.id = p.question_order.length + j + 1 := hid _ q hj
    have hnone : dlookup q.id ans = none := by
      apply dlookup_eq_none
      intro kv hkv he
      have h2 := (hkeys kv hkv).2
      rw [he, hqid] at h2
      omega
    simp [matchB, hnone]
  have htake : (p.exam.questions.take p.question_order.length).countP
      (matchB ans) = (List.range p.question_order.length).countP
      (fun i => posCorrect p ans (i + 1)) := by
    apply countP_take_range p.exam.questions p.question_order.length
      (matchB ans) (fun i => posCorrect p ans (i + 1)) htm
    intro i q hi hq
    have hqid : q.id = i + 1 := hid i q hq
    have hdisp : displayedQuestion p (i + 1) = some q := by
      unfold displayedQuestion
      rw [Nat.add_sub_cancel, hord, List.get?_range hi]
      exact hq
    unfold posCorrect matchB
    rw [hqid, hdisp]
    rcases hck : dlookup (i + 1) ans with _ | ua <;> rfl
  calc p.exam.questions.countP (matchB ans)
      = ((p.exam.questions.take p.question_order.length) ++
         (p.exam.questions.drop p.question_order.length)).countP
         (matchB ans) := by rw [hsplit]
    _ = (List.range p.question_order.length).countP
         (fun i => posCorrect p ans (i + 1)) := by
        rw [List.countP_append, hdrop, htake]
        exact Nat.add_zero _
    _ = correctCount p ans := by
        unfold correctCount
        rw [List.countP_map]
        exact rfl

/-- The three-question fallback exam used to refute the rounding
formula: positions 1 and 2 answered correctly, position 3 unanswered. -/
def cePlayer : ExamPlayer :=
  (select_answer (select_answer ((start_new_session
    { exam := fallback_exam "Azure Infrastructure Practice" 3 }
    false 0 "session_3" "t0").1) 1 [0] "t1").1 2 [1] "t2").1

/-- A four-question fallback exam started with a question limit of 2
(display order `[0, 1]`, total 2) and an answer recorded at display
position 3 — beyond the truncated display order, but equal to the id of
question 3, whose correct set it matches. -/
def cePlayer2 : ExamPlayer :=
  (select_answer ((start_new_session
    { exam := fallback_exam "Azure Infrastructure Practice" 4 }
    false 2 "session_4" "t0").1) 3 [0] "t1").1

/-- C1 (counterexample): two deviations from the claimed formula on
concrete reachable sessions.  Rounding: with 2 of 3 display positions
answered correctly the code returns `int((2/3)*100) = 66` while the
claimed `round(100 * correct_count / total_questions)` is 67.
Ids versus display positions: with the display order truncated to 2 of
4 questions and a matching answer recorded at position 3, the code
counts it against question id 3 and returns 50, while the claim's
display-position correct count is 0 (position 3 is not displayed), so
the claimed score is 0. -/
theorem claim_C1_counterexample :
    (calculate_score cePlayer).2.1 = 66 ∧
    correctCount cePlayer (sessionAnswers cePlayer) = 2 ∧
    cePlayer.question_order.length = 3 ∧
    pyRound (100 * correctCount cePlayer (sessionAnswers cePlayer))
      cePlayer.question_order.length = 67 ∧
    (66 : Nat) ≠ 67 ∧
    (calculate_score cePlayer2).2.1 = 50 ∧
    correctCount cePlayer2 (sessionAnswers cePlayer2) = 0 ∧
    cePlayer2.question_order.length = 2 ∧
    pyRound (100 * correctCount cePlayer2 (sessionAnswers cePlayer2))
      cePlayer2.question_order.length = 0 ∧
    (50 : Nat) ≠ 0 := by
  exact ⟨rfl, rfl, rfl, rfl, by decide, rfl, rfl, rfl, rfl, by decide⟩

/-- C1 (amended): for every active session whose display order is
non-empty: with no recorded answers `calculate_score` returns
`(0, False)` without touching the session; otherwise it returns
score = `int((correct_count / total_questions) * 100)` evaluated in
binary64 float arithmetic — truncation, not rounding, and on
float-unlucky pairs such as 29 of 100 one below the exact floor — where
correct_count counts the exam questions whose id occurs as a key of the
answers dict with a matching selected-index set; passed =
(score >= exam.passing_score), and score and passed are written into
the session.  The id-keyed correct_count coincides with the claim's
display-position count whenever question ids are sequential from 1, the
display order is the identity prefix built by `start_new_session`, and
every answer key lies within it — the Question Source's normal regime —
but not under a truncating question limit (see the counterexample). -/
theorem claim_C1_amended (p : ExamPlayer) (s : ExamSession)
    (hs : p.current_session = some s)
    (_htpos : 0 < p.question_order.length) :
    (s.answers.isEmpty = true → calculate_score p = (p, 0, false)) ∧
    (s.answers.isEmpty = false →
      (calculate_score p).2.1 = pyIntTimes100
        (p.exam.questions.countP (matchB s.answers))
        p.question_order.length ∧
      ((calculate_score p).2.2 =
        decide (p.exam.passing_score ≤ (calculate_score p).2.1)) ∧
      (calculate_score p).1.current_session.map ExamSession.score =
        some (some ((calculate_score p).2.1)) ∧
      (calculate_score p).1.current_session.map ExamSession.passed =
        some (some ((calculate_score p).2.2))) ∧
    (p.exam.questions.map Question.id =
        (List.range p.exam.questions.length).map (· + 1) →
      p.question_order = List.range p.question_order.length →
      p.question_order.length ≤ p.exam.questions.length →
      (∀ kv ∈ s.answers, 1 ≤ kv.1 ∧
        kv.1 ≤ p.question_order.length) →
      p.exam.questions.countP (matchB s.answers) =
        correctCount p s.answers) := by
  refine ⟨?_, ?_, ?_⟩
  · intro he
    simp [calculate_score, hs, he]
  · intro hne
    rw [calculate_score_eq p s hs hne]
    dsimp only
    rw [scoreList_count]
    exact ⟨rfl, rfl, rfl, rfl⟩
  · intro hids hord htm hkeys
    exact code_count_eq_spec p s.answers hids hord htm hkeys

/-- C1 (witness): the amended claim instantiated on the spec's own
scenario — 4 questions, passing score 70, 3 answered correctly, 1
unanswered — where the id-keyed and display-position counts coincide
and the score is 75, passing; plus concrete checks of the float model:
29 of 100 scores 28 where exact floor division would give 29. -/
theorem claim_C1_witness :
    ((calculate_score scenarioPlayer).2.1 = pyIntTimes100
      (scenarioPlayer.exam.questions.countP
        (matchB scenarioSession.answers))
      scenarioPlayer.question_order.length) ∧
    (scenarioPlayer.exam.questions.countP (matchB scenarioSession.answers)
      = correctCount scenarioPlayer scenarioSession.answers) ∧
    (calculate_score scenarioPlayer).2.1 = 75 ∧
    (calculate_score scenarioPlayer).2.2 = true ∧
    sampleExam.passing_score = 70 ∧
    pyIntTimes100 29 100 = 28 ∧
    29 * 100 / 100 = 29 :=
  ⟨((claim_C1_amended scenarioPlayer scenarioSession rfl
      (by decide)).2.1 rfl).1,
   (claim_C1_amended scenarioPlayer scenarioSession rfl
      (by decide)).2.2 (by decide) (by decide) (by decide) (by decide),
   by decide, by decide, by decide, by decide, by decide⟩

lemma az305Pool_length : az305Pool.length = 25 := rfl

/-- C9 (counterexample): the cyclic repeat/truncate-to-requested-count
behaviour does not hold for every pool.  A file named for the azure
fundamentals topic with a 35-question count pattern yields the fixed
5-question fundamentals pool, not 35 questions. -/
theorem claim_C9_counterexample :
    (create_fallback_questions "AZ 900 Azure Fundamentals Practice 35q"
      35).length = 5 ∧
    (create_fallback_questions "AZ 900 Azure Fundamentals Practice 35q"
      35).length ≠ 35 ∧
    create_fallback_questions "AZ 900 Azure Fundamentals Practice 35q"
      35 = fundamentalsPool := by
  exact ⟨rfl, by decide, rfl⟩

/-- C9 (amended): the Question Source is a pure function of the
path-derived title and extracted count, so it is deterministic given
the file path.  For azure-infrastructure titles the canned 25-question
pool is cyclically repeated/truncated to the requested count with ids
reassigned sequentially from 1 (entries beyond the pool get slightly
modified text); for azure-fundamentals titles the fixed 5-question pool
(ids 1..5) is returned as-is, and for all other titles a fixed generic
2-question pool (ids 1, 2) — in both latter cases the requested count is
ignored. -/
theorem claim_C9_amended (title : String) (extracted_count : Nat) :
    (create_fallback_questions title extracted_count =
      create_fallback_questions title extracted_count) ∧
    ((pyIn "azure" (pyLower title) &&
        pyIn "infrastructure" (pyLower title)) = true →
      (create_fallback_questions title extracted_count).length =
        (if extracted_count = 0 then 25 else extracted_count) ∧
      (∀ i q, (create_fallback_questions title extracted_count).get? i =
          some q → q.id = i + 1) ∧
      (∀ i q, i < min (if extracted_count = 0 then 25 else
          extracted_count) 25 →
        (create_fallback_questions title extracted_count).get? i =
          some q →
        q = { az305Pool.getD (i % 25) default with id := i + 1 })) ∧
    ((pyIn "azure" (pyLower title) &&
        pyIn "infrastructure" (pyLower title)) = false →
      (pyIn "azure" (pyLower title) &&
        pyIn "fundamentals" (pyLower title)) = true →
      create_fallback_questions title extracted_count =
        fundamentalsPool ∧
      fundamentalsPool.map Question.id = [1, 2, 3, 4, 5]) ∧
    ((pyIn "azure" (pyLower title) &&
        pyIn "infrastructure" (pyLower title)) = false →
      (pyIn "azure" (pyLower title) &&
        pyIn "fundamentals" (pyLower title)) = false →
      (create_fallback_questions title extracted_count).map Question.id =
        [1, 2]) := by
  refine ⟨rfl, ?_, ?_, ?_⟩
  · intro hinf
    simp only [create_fallback_questions, hinf, if_true,
      az305Pool_length, List.length_map, List.length_range,
      Nat.zero_mul, Nat.zero_add]
    constructor
    · rw [List.length_take, List.length_append, List.length_map,
        List.length_map, List.length_range, List.length_range]
      omega
    constructor
    · intro i q hq
      have hq1 := hq
      have hlt : i < (if extracted_count = 0 then 25 else
          extracted_count) := by
        obtain ⟨hb, _⟩ := List.get?_eq_some.mp hq1
        exact lt_of_lt_of_le hb (List.length_take_le _ _)
      rw [List.get?_take hlt] at hq1
      by_cases hi2 : i < min (if extracted_count = 0 then 25 else
          extracted_count) 25
      · rw [List.get?_append (by simpa using hi2), List.get?_map,
          List.get?_range hi2] at hq1
        have hqe := Option.some.inj hq1
        rw [← hqe]
      · have hm : min (if extracted_count = 0 then 25 else
            extracted_count) 25 ≤ i := Nat.le_of_not_lt hi2
        rw [List.get?_append_right (by simpa using hm),
          List.get?_map] at hq1
        simp only [List.length_map, List.length_range] at hq1
        have hj : i - min (if extracted_count = 0 then 25 else
            extracted_count) 25 < (if extracted_count = 0 then 25 else
            extracted_count) - min (if extracted_count = 0 then 25 else
            extracted_count) 25 := by omega
        rw [List.get?_range hj] at hq1
        have hqe := Option.some.inj hq1
        rw [← hqe]
        simp only []
        omega
    · intro i q hi hq
      have hlt : i < (if extracted_count = 0 then 25 else
          extracted_count) := lt_of_lt_of_le hi (Nat.min_le_left _ _)
      rw [List.get?_take hlt, List.get?_append (by simpa using hi),
        List.get?_map, List.get?_range hi] at hq
      exact (Option.some.inj hq).symm
  · intro hinf hfund
    simp only [create_fallback_questions, hinf, hfund]
    exact ⟨rfl, rfl⟩
  · intro hinf hfund
    simp only [create_fallback_questions, hinf, hfund]
    rfl

/-- C9 (witness): the amended claim applied concretely — an
azure-infrastructure title with requested count 30 yields exactly 30
questions (cycling past the 25-question pool), while an
azure-fundamentals title yields the fixed 5-question pool regardless of
its requested count. -/
theorem claim_C9_witness :
    (create_fallback_questions "Azure Infrastructure Mock" 30).length =
      30 ∧
    create_fallback_questions "AZ 900 Azure Fundamentals" 7 =
      fundamentalsPool :=
  ⟨((claim_C9_amended "Azure Infrastructure Mock" 30).2.1 (by decide)).1,
   ((claim_C9_amended "AZ 900 Azure Fundamentals" 7).2.2.1 (by decide)
     (by decide)).1⟩

end VceTrainer
